import Mathlib

/-
Shallow embedding of src/proctl/proctl_linux_amd64.go (package proctl).

The OS trace facility (ptrace) is modelled explicitly:
- the target memory is a byte map `Nat → Nat`;
- each operation returns, besides its Go result, the list of trace
  syscalls it issued, so that claims such as "performs no memory write"
  or "does not attempt a trace call" are directly statable;
- fallible syscalls (PtracePokeData, PtraceSingleStep, PtraceCont, Wait,
  PtraceGetRegs) are parameterised by oracles giving their outcome, since
  their behaviour lives in the kernel, not in this repository.

Fields of the Go DebuggedProcess struct that are pure OS handles
(Process, Executable, Symbols, the Regs pointer) are represented by those
oracles; the fields the claims are about (Pid, GoSymTable, BreakPoints,
ProcessState) are kept.
-/

/-- A byte-addressed view of the target process memory. -/
abbrev Mem := Nat → Nat

/-- The trace syscalls the debugger can issue against the target. -/
inductive Syscall where
  | singleStep
  | cont
  | pokeData (addr : Nat) (data : List Nat)
  | getRegs
  | wait
deriving DecidableEq, Repr

/-- Classified outcome of a Wait on the target (os.ProcessState). -/
inductive ProcState where
  | stopped (sig : Nat)
  | exited (code : Nat)
  | signalled (sig : Nat)
deriving DecidableEq, Repr

/-- The view of a gosym function entry that the source reads: its Name and
the PC and Line fields of its LineTable. The source uses fn.LineTable.PC
as the resolved entry address of the function. -/
structure Fn where
  name : String
  lineTablePC : Nat
  lineTableLine : Nat
deriving DecidableEq, Repr

/-- The runtime symbol table (gosym.Table): LookupFunc resolves a function
by exact name; PCToLine maps a program counter to (file, line, function),
where the function component is nil (none) for addresses outside any
known function. Both are pure reads of immutable data. -/
structure GoSymTable where
  funcs : List Fn
  pcToLine : Nat → String × Nat × Option Fn

/-- LookupFunc: exact-name match over the table. -/
def GoSymTable.lookupFunc (t : GoSymTable) (fname : String) : Option Fn :=
  t.funcs.find? (fun f => f.name == fname)

/-- The BreakPoint record of the source. It holds exactly these three
fields: function name, line, address. It has no field for saved original
memory bytes. -/
structure BreakPoint where
  functionName : String
  line : Nat
  addr : Nat
deriving DecidableEq, Repr

/-- The DebuggedProcess session state the claims are about. -/
structure DebuggedProcess where
  pid : Nat
  goSymTable : GoSymTable
  breakPoints : List (String × BreakPoint)
  processState : ProcState

/-- The byte sequence the source pokes into the target at a breakpoint
address: int3 = \x7b byte('0'), byte('x'), byte('C'), byte('C') \x7d, that
is the four ASCII bytes 0x30 0x78 0x43 0x43 of the text "0xCC". -/
def int3 : List Nat := [0x30, 0x78, 0x43, 0x43]

/-- PtracePokeData: write data.length consecutive bytes into the target
memory starting at addr. -/
def ptracePokeData (mem : Mem) (addr : Nat) (data : List Nat) : Mem :=
  fun a => if addr ≤ a ∧ a < addr + data.length then data.getD (a - addr) 0 else mem a

/-- Result of a Break call: the session and target memory after the call,
the Go return value, and the trace syscalls issued. -/
structure BreakResult where
  dbp : DebuggedProcess
  mem : Mem
  result : Except String BreakPoint
  calls : List Syscall

/-- Break (proctl_linux_amd64.go): resolve fname via LookupFunc; error if
unknown; error if a breakpoint is already recorded for fname; otherwise
poke int3 at fn.LineTable.PC and record the new BreakPoint keyed by
fname. pokeErr is the oracle for the PtracePokeData outcome. -/
def Break (dbp : DebuggedProcess) (mem : Mem) (pokeErr : Option String)
    (fname : String) : BreakResult :=
  match dbp.goSymTable.lookupFunc fname with
  | none =>
      { dbp := dbp, mem := mem
      , result := .error ("No function named " ++ fname ++ "\n"), calls := [] }
  | some fn =>
      if (dbp.breakPoints.lookup fname).isSome then
        { dbp := dbp, mem := mem
        , result := .error "Breakpoint already set", calls := [] }
      else
        match pokeErr with
        | some e =>
            { dbp := dbp, mem := mem, result := .error e
            , calls := [Syscall.pokeData fn.lineTablePC int3] }
        | none =>
            { dbp := { dbp with breakPoints :=
                (fname, { functionName := fn.name, line := fn.lineTableLine
                        , addr := fn.lineTablePC }) :: dbp.breakPoints }
            , mem := ptracePokeData mem fn.lineTablePC int3
            , result := .ok { functionName := fn.name, line := fn.lineTableLine
                            , addr := fn.lineTablePC }
            , calls := [Syscall.pokeData fn.lineTablePC int3] }

/-- handleResult: if the trace operation returned an error, return it at
once (Wait is not called); otherwise Wait, and only when Wait also
succeeds store the new ProcessState into the session. -/
def handleResult (dbp : DebuggedProcess) (traceErr : Option String)
    (waitResult : Except String ProcState) : DebuggedProcess × Option String :=
  match traceErr with
  | some e => (dbp, some e)
  | none =>
      match waitResult with
      | .error e => (dbp, some e)
      | .ok ps => ({ dbp with processState := ps }, none)

/-- Outcome of a Step call. The source prints the stop location and
returns nil on success; dereferencing fn.Name when PCToLine returned a
nil function is a runtime nil-pointer panic, represented by panicNilFn. -/
inductive StepResult where
  | stoppedAt (fnName : String) (file : String) (line : Nat)
  | error (msg : String)
  | panicNilFn
deriving DecidableEq, Repr

/-- Session state, outcome and syscall trace of a Step call. -/
structure StepOut where
  dbp : DebuggedProcess
  result : StepResult
  calls : List Syscall

/-- Step (proctl_linux_amd64.go): unconditionally issue
PtraceSingleStep and feed its outcome to handleResult; on error return
"step failed: " plus the error; otherwise read the registers, resolve
the PC through PCToLine and print the location, dereferencing the
function pointer without a nil check. singleStepErr, waitResult and
regsResult are the oracles for the three syscalls. -/
def Step (dbp : DebuggedProcess) (singleStepErr : Option String)
    (waitResult : Except String ProcState)
    (regsResult : Except String Nat) : StepOut :=
  let hr := handleResult dbp singleStepErr waitResult
  let calls0 := Syscall.singleStep ::
    (if singleStepErr.isSome then [] else [Syscall.wait])
  match hr.2 with
  | some e => { dbp := hr.1, result := .error ("step failed: " ++ e), calls := calls0 }
  | none =>
      match regsResult with
      | .error e => { dbp := hr.1, result := .error e
                    , calls := calls0 ++ [Syscall.getRegs] }
      | .ok pc =>
          match hr.1.goSymTable.pcToLine pc with
          | (f, l, some fn) =>
              { dbp := hr.1, result := .stoppedAt fn.name f l
              , calls := calls0 ++ [Syscall.getRegs] }
          | (_, _, none) =>
              { dbp := hr.1, result := .panicNilFn
              , calls := calls0 ++ [Syscall.getRegs] }

/-- Session state, returned error and syscall trace of a Continue call.
The Go Continue returns only an error value: it produces no location
report and no program counter. -/
structure ContinueOut where
  dbp : DebuggedProcess
  err : Option String
  calls : List Syscall

/-- Continue (proctl_linux_amd64.go): unconditionally issue PtraceCont
and feed its outcome to handleResult. Nothing else is done. -/
def Continue (dbp : DebuggedProcess) (contErr : Option String)
    (waitResult : Except String ProcState) : ContinueOut :=
  let hr := handleResult dbp contErr waitResult
  { dbp := hr.1, err := hr.2
  , calls := Syscall.cont :: (if contErr.isSome then [] else [Syscall.wait]) }

/- Concrete fixtures used by the closed theorems and witnesses. -/

/-- A concrete function entry: main.main resolved at entry address 64. -/
def fnMain : Fn := { name := "main.main", lineTablePC := 64, lineTableLine := 7 }

/-- A concrete symbol table knowing only main.main; PCToLine resolves 64
and returns a nil function for every other address. -/
def tableC : GoSymTable :=
  { funcs := [fnMain]
  , pcToLine := fun pc =>
      if pc = 64 then ("main.go", 7, some fnMain) else ("", 0, none) }

/-- Concrete target memory before any breakpoint: original bytes 0x55 and
0x66 at the entry of main.main. -/
def memC : Mem := fun a => if a = 64 then 0x55 else if a = 65 then 0x66 else 0

/-- A second concrete memory, differing from memC at the entry address. -/
def memC2 : Mem := fun a => if a = 64 then 0x11 else 3

/-- A fresh session on the concrete table, no breakpoints, stopped. -/
def dbpFresh : DebuggedProcess :=
  { pid := 42, goSymTable := tableC, breakPoints := [], processState := .stopped 5 }

/-- The BreakPoint record Break creates for main.main. -/
def bpMain : BreakPoint := { functionName := "main.main", line := 7, addr := 64 }

/-- A session already holding a breakpoint for main.main. -/
def dbpWithBp : DebuggedProcess :=
  { dbpFresh with breakPoints := [("main.main", bpMain)] }

/-- A session whose observed ProcessState is Exited. -/
def dbpExited : DebuggedProcess := { dbpFresh with processState := .exited 0 }

/- Theorems settling the claims. -/

/-- C1: the claim states that Break writes exactly one byte equal to the
trap opcode 0xCC at the resolved entry address. The code instead writes
int3, the four ASCII bytes 0x30 0x78 0x43 0x43 of the text "0xCC": on
the concrete session the single PtracePokeData call carries that
four-byte textual encoding, which is not the list [0xCC]. -/
theorem break_trap_write_is_textual :
    int3.length = 4 ∧ int3 ≠ [0xCC] ∧ (0xCC ∉ int3) ∧
    (Break dbpFresh memC none "main.main").calls =
      [Syscall.pokeData 64 [0x30, 0x78, 0x43, 0x43]] ∧
    (Break dbpFresh memC none "main.main").mem 64 = 0x30 := by
  refine ⟨rfl, by decide, by decide, by decide, by decide⟩

/-- C2: the claim states that set followed by clear restores memory
byte-for-byte via the saved original byte. The code saves nothing: a
successful Break overwrites the bytes at the entry (0x55 becomes 0x30)
while both the session it returns and the BreakPoint it records are
identical for two memories that differ at the entry address, so no trace
of the original byte is kept anywhere, and no clear operation exists in
the source to write one back. -/
theorem break_saves_no_original_byte :
    memC 64 = 0x55 ∧ memC2 64 = 0x11 ∧
    (Break dbpFresh memC none "main.main").mem 64 = 0x30 ∧
    (Break dbpFresh memC2 none "main.main").mem 64 = 0x30 ∧
    (Break dbpFresh memC none "main.main").result =
      (Break dbpFresh memC2 none "main.main").result ∧
    (Break dbpFresh memC none "main.main").dbp.breakPoints =
      (Break dbpFresh memC2 none "main.main").dbp.breakPoints := by
  refine ⟨rfl, rfl, by decide, by decide, rfl, by decide⟩

/-- C3: when a breakpoint is already recorded for fname (and fname still
resolves in the immutable symbol table), a second Break fails with the
error "Breakpoint already set", issues no syscall (in particular no
memory write), and returns the session and the memory unchanged, so the
breakpoint map keeps at most one entry per function name. -/
theorem break_duplicate_rejected (dbp : DebuggedProcess) (mem : Mem)
    (pokeErr : Option String) (fname : String) (fn : Fn)
    (hfn : dbp.goSymTable.lookupFunc fname = some fn)
    (hbp : (dbp.breakPoints.lookup fname).isSome = true) :
    Break dbp mem pokeErr fname =
      { dbp := dbp, mem := mem
      , result := .error "Breakpoint already set", calls := [] } := by
  unfold Break
  rw [hfn]
  simp [hbp]

/-- Witness for C3 at a concrete session holding a breakpoint for
main.main. -/
theorem break_duplicate_rejected_witness :
    dbpWithBp.goSymTable.lookupFunc "main.main" = some fnMain ∧
    (dbpWithBp.breakPoints.lookup "main.main").isSome = true ∧
    Break dbpWithBp memC (some "poke") "main.main" =
      { dbp := dbpWithBp, mem := memC
      , result := .error "Breakpoint already set", calls := [] } :=
  ⟨by decide, by decide,
    break_duplicate_rejected dbpWithBp memC (some "poke") "main.main" fnMain
      (by decide) (by decide)⟩

/-- C4: when fname is not present in the symbol table, Break fails with
the unknown-function error and returns the session and the target memory
verbatim: the breakpoint map has the same entries and no syscall (hence
no memory write) is issued. -/
theorem break_unknown_function_rejected (dbp : DebuggedProcess) (mem : Mem)
    (pokeErr : Option String) (fname : String)
    (h : dbp.goSymTable.lookupFunc fname = none) :
    Break dbp mem pokeErr fname =
      { dbp := dbp, mem := mem
      , result := .error ("No function named " ++ fname ++ "\n"), calls := [] } := by
  unfold Break
  rw [h]

/-- Witness for C4 at a concrete session with an empty breakpoint map and
a name absent from the symbol table. -/
theorem break_unknown_function_rejected_witness :
    dbpFresh.goSymTable.lookupFunc "no_such_fn" = none ∧
    dbpFresh.breakPoints = [] ∧
    Break dbpFresh memC none "no_such_fn" =
      { dbp := dbpFresh, mem := memC
      , result := .error ("No function named " ++ "no_such_fn" ++ "\n")
      , calls := [] } :=
  ⟨by decide, rfl,
    break_unknown_function_rejected dbpFresh memC none "no_such_fn" (by decide)⟩

/-- C5: the claim states that step and continue on an Exited or
Signalled session fail with ProcessExited without attempting a trace
call. The code never inspects ProcessState: on the concrete session
whose observed state is Exited(0), Step issues PtraceSingleStep and
Continue issues PtraceCont anyway, and each returns the raw OS error of
the trace call, not a process-exited check. -/
theorem step_continue_on_exited_still_trace :
    dbpExited.processState = ProcState.exited 0 ∧
    (Step dbpExited (some "no such process") (.error "w") (.error "r")).calls =
      [Syscall.singleStep] ∧
    (Step dbpExited (some "no such process") (.error "w") (.error "r")).result =
      .error ("step failed: " ++ "no such process") ∧
    (Continue dbpExited (some "no such process") (.error "w")).calls =
      [Syscall.cont] ∧
    (Continue dbpExited (some "no such process") (.error "w")).err =
      some "no such process" := by
  refine ⟨rfl, rfl, rfl, rfl, rfl⟩

/-- C6: the claim states that Step, when the PC sits on an enabled
breakpoint, first restores the original byte, single-steps, then re-arms
the trap. The code has no such protocol: for every session and every
syscall outcome, the first thing Step does is issue PtraceSingleStep,
and its syscall trace never contains a PtracePokeData, so no byte is
ever restored or re-armed — in particular on a session whose breakpoint
for main.main is armed at the current PC. -/
theorem step_has_no_stepover_protocol (dbp : DebuggedProcess)
    (sErr : Option String) (w : Except String ProcState)
    (r : Except String Nat) :
    (Step dbp sErr w r).calls.head? = some Syscall.singleStep ∧
    ∀ a d, Syscall.pokeData a d ∉ (Step dbp sErr w r).calls := by
  unfold Step handleResult
  cases sErr with
  | some e => simp
  | none =>
      cases w with
      | error e => simp
      | ok ps =>
          cases r with
          | error e => simp
          | ok pc =>
              rcases h : dbp.goSymTable.pcToLine pc with ⟨f, l, ofn⟩
              cases ofn <;> simp [h]

/-- C7: the claim states that when PCToLine finds no owning function for
the stopped PC, Step handles the missing function gracefully. The code
dereferences fn.Name without a nil check: on the concrete session, a
step that stops at PC 9999 — outside every known function, so PCToLine
returns a nil function — makes Step hit the nil-pointer dereference
(a runtime panic), not a graceful result. -/
theorem step_nil_function_panics :
    (tableC.pcToLine 9999).2.2 = none ∧
    (Step dbpFresh none (.ok (.stopped 5)) (.ok 9999)).result =
      StepResult.panicNilFn := by
  refine ⟨by decide, by decide⟩

/-- C8: the claim states that a Continue stopping on an installed
breakpoint reports a program counter rewound to the entry address and
classifies the stop as a hit of that breakpoint. The code cannot: for
every session and every syscall outcome, Continue issues only PtraceCont
(and a Wait), never reads the registers and never writes memory, and on
the concrete armed session its whole output is the stored wait state and
a nil error — no program counter, no location, no classification. -/
theorem continue_reports_no_location (dbp : DebuggedProcess)
    (cErr : Option String) (w : Except String ProcState) :
    (Syscall.getRegs ∉ (Continue dbp cErr w).calls) ∧
    (∀ a d, Syscall.pokeData a d ∉ (Continue dbp cErr w).calls) ∧
    (Continue dbpWithBp none (.ok (.stopped 5))).err = none ∧
    (Continue dbpWithBp none (.ok (.stopped 5))).calls =
      [Syscall.cont, Syscall.wait] := by
  refine ⟨?_, ?_, rfl, rfl⟩ <;>
    · unfold Continue handleResult
      cases cErr <;> simp

/-- C9: a successful Break on fname records a BreakPoint whose Addr
field equals fn.LineTable.PC, the entry address the symbol table
resolved for fname at creation time, and the single PtracePokeData call
that installed the trap bytes targets that same address. -/
theorem break_records_resolved_entry (dbp : DebuggedProcess) (mem : Mem)
    (fname : String) (fn : Fn)
    (hfn : dbp.goSymTable.lookupFunc fname = some fn)
    (hbp : dbp.breakPoints.lookup fname = none) :
    (Break dbp mem none fname).result =
      .ok { functionName := fn.name, line := fn.lineTableLine
          , addr := fn.lineTablePC } ∧
    (Break dbp mem none fname).calls =
      [Syscall.pokeData fn.lineTablePC int3] ∧
    (Break dbp mem none fname).dbp.breakPoints.lookup fname =
      some { functionName := fn.name, line := fn.lineTableLine
           , addr := fn.lineTablePC } := by
  refine ⟨?_, ?_, ?_⟩ <;>
    · unfold Break
      rw [hfn]
      simp [hbp, List.lookup]

/-- Witness for C9 at the concrete fresh session: main.main resolves to
entry 64 and the recorded Addr and poked address are both 64. -/
theorem break_records_resolved_entry_witness :
    dbpFresh.goSymTable.lookupFunc "main.main" = some fnMain ∧
    dbpFresh.breakPoints.lookup "main.main" = none ∧
    ((Break dbpFresh memC none "main.main").result =
      .ok { functionName := fnMain.name, line := fnMain.lineTableLine
          , addr := fnMain.lineTablePC } ∧
    (Break dbpFresh memC none "main.main").calls =
      [Syscall.pokeData fnMain.lineTablePC int3] ∧
    (Break dbpFresh memC none "main.main").dbp.breakPoints.lookup "main.main" =
      some { functionName := fnMain.name, line := fnMain.lineTableLine
           , addr := fnMain.lineTablePC }) :=
  ⟨by decide, rfl,
    break_records_resolved_entry dbpFresh memC "main.main" fnMain
      (by decide) rfl⟩

/-- C10: handleResult returns a failed trace operation error at once —
for every wait outcome w the result is the same pair (dbp, some e), so
Wait is never consulted and the stored ProcessState is untouched; a
failed Wait likewise leaves the session unchanged; the ProcessState
field is replaced only when the trace operation and the Wait both
succeed. -/
theorem handleResult_error_paths (dbp : DebuggedProcess) (e : String)
    (w : Except String ProcState) :
    handleResult dbp (some e) w = (dbp, some e) ∧
    handleResult dbp none (.error e) = (dbp, some e) ∧
    ∀ ps, handleResult dbp none (.ok ps) =
      ({ dbp with processState := ps }, none) := by
  refine ⟨rfl, rfl, fun ps => rfl⟩
